import Mathlib

/-!
Shallow embedding of `src/mcp_server_odoo/odoo_client.py` (odoo-mcp-server).

The module defines a pydantic configuration record (`OdooConfig`) with a
cross-field credential check, and a facade (`OdooClient`) that obtains an
environment handle from the external odooly client at construction time and
exposes normalized CRUD operations.  Remote behavior is a parameter of each
embedded operation (a function standing for the model proxy reached through
the environment handle); what the embedding captures is exactly what the
repository's code computes: which arguments are forwarded, how singular and
plural inputs are normalized, how results are unwrapped, and how the
authenticated identity is cached.

Machine-level conventions: Python optional strings are `Option String`
(with `none` and the empty string falsy); the identity returned by the
remote authenticate call is an `Int`, with `0` standing for the falsy
result (`False`/`0`) the remote returns on bad credentials; a Python
`IndexError` from an unguarded `result[0]` is `PyError.indexError`.
-/

namespace OdooMcp

/-- Python truthiness of an optional string: `None` and `""` are falsy. -/
def strTruthy : Option String → Bool
  | none => false
  | some s => !s.isEmpty

/-- Python `a or b` on optional strings: the first operand when truthy, else the second. -/
def pyOrStr (a b : Option String) : Option String :=
  if strTruthy a then a else b

/-- `str.rstrip("/")`: remove all trailing slash characters. -/
def rstripSlash (s : String) : String :=
  String.mk ((s.data.reverse.dropWhile (fun c => c == '/')).reverse)

/-- Opaque stand-in for a transport object: either a fresh `CustomTransport()`
built by the facade, or the transport supplied in the configuration
(identified by a tag, since the claims never inspect its internals). -/
inductive Transport where
  | fresh : Transport
  | provided : Nat → Transport
deriving DecidableEq, Repr

/-- The validated configuration record (`OdooConfig`), fields as in the source:
`url`, `database`, `username` required strings; `password`, `api_key` optional;
`timeout` defaulting to 120; `transport` an optional override. -/
structure OdooConfig where
  url : String
  database : String
  username : String
  password : Option String
  api_key : Option String
  timeout : Int
  transport : Option Nat
deriving DecidableEq, Repr

/-- Errors raised during `OdooConfig(...)` construction: pydantic's
missing-required-field validation error, or the `model_post_init`
`ValueError` when both credentials are falsy. -/
inductive ConfigError where
  | missingField
  | credentialError
deriving DecidableEq, Repr

/-- `OdooConfig(**kwargs)`: pydantic validates that the required fields
`url`, `database`, `username` were provided (an omitted required field is
`none` here), applies the default `120` to an omitted `timeout`, then runs
`model_post_init`, which raises when both `password` and `api_key` are
falsy.  Pydantic performs no non-emptiness check on the string fields. -/
def mkOdooConfig (url database username : Option String)
    (password api_key : Option String) (timeout : Option Int)
    (transport : Option Nat) : Except ConfigError OdooConfig :=
  match url, database, username with
  | some u, some d, some n =>
      if !strTruthy password && !strTruthy api_key then
        .error .credentialError
      else
        .ok { url := u, database := d, username := n,
              password := password, api_key := api_key,
              timeout := timeout.getD 120, transport := transport }
  | _, _, _ => .error .missingField

/-- The keyword arguments of the `OdoolyClient(...)` constructor call issued
by `OdooClient.__init__`.  A `none` field means the keyword was not passed. -/
structure OdoolyCtorKwargs where
  transport : Option Transport
  timeout : Option Int
deriving DecidableEq, Repr

/-- The full `OdoolyClient(url, database, username, password, ...)` call,
positional arguments plus keyword arguments. -/
structure OdoolyCtorCall where
  url : String
  database : String
  username : String
  password : Option String
  kwargs : OdoolyCtorKwargs
deriving DecidableEq, Repr

/-- The facade state after `OdooClient.__init__`: the attributes the source
assigns on `self`, plus a record of the constructor call made on the
external client. -/
structure OdooClient where
  config : OdooConfig
  url : String
  database : String
  username : String
  password : Option String
  timeout : Int
  uid : Option Int
  transport : Transport
  ctorCall : OdoolyCtorCall
deriving DecidableEq, Repr

/-- `OdooClient.__init__(config)` with odooly importable: strips the trailing
slash from the url, derives the effective credential
(`config.api_key or config.password`), picks
`config.transport or CustomTransport()`, leaves `uid` unset, and constructs
the external client with `(url, database, username, password, transport=...)`
— no timeout keyword appears in that call. -/
def mkOdooClient (config : OdooConfig) : OdooClient :=
  let url := rstripSlash config.url
  let password := pyOrStr config.api_key config.password
  let transport := match config.transport with
    | some t => Transport.provided t
    | none => Transport.fresh
  { config := config
    url := url
    database := config.database
    username := config.username
    password := password
    timeout := config.timeout
    uid := none
    transport := transport
    ctorCall := { url := url, database := config.database,
                  username := config.username, password := password,
                  kwargs := { transport := some transport, timeout := none } } }

/-- The `ValueError("Authentication failed. ...")` signal. -/
inductive AuthError where
  | authFailed
deriving DecidableEq, Repr

/-- Outcome of one `authenticate()` call: the returned-or-raised value, the
facade state afterwards, and how many remote authenticate calls were made. -/
structure AuthOutcome where
  ret : Except AuthError Int
  client : OdooClient
  remoteCalls : Nat
deriving Repr

/-- `OdooClient.authenticate()`: when `self.uid is None`, call the remote
authenticate with `(database, username, password, empty-context)`, assign the
result to `self.uid`, and raise when that result is falsy; otherwise return
the cached `self.uid` without a remote call. -/
def OdooClient.authenticate (c : OdooClient)
    (remote : String → String → Option String → Int) : AuthOutcome :=
  match c.uid with
  | some u => { ret := .ok u, client := c, remoteCalls := 0 }
  | none =>
      let v := remote c.database c.username c.password
      let c' := { c with uid := some v }
      if v == 0 then
        { ret := .error .authFailed, client := c', remoteCalls := 1 }
      else
        { ret := .ok v, client := c', remoteCalls := 1 }

/-- Iterate `authenticate()` `n` times on the same facade, returning the
final facade state and the total number of remote authenticate calls. -/
def authTimes (remote : String → String → Option String → Int) :
    OdooClient → Nat → OdooClient × Nat
  | c, 0 => (c, 0)
  | c, n + 1 =>
      let o := OdooClient.authenticate c remote
      let p := authTimes remote o.client n
      (p.1, o.remoteCalls + p.2)

/-- Python exceptions the CRUD layer itself can raise: indexing `result[0]`
on an empty remote result. -/
inductive PyError where
  | indexError
deriving DecidableEq, Repr

/-- The `ids` argument of `read`/`write`/`unlink`: a scalar integer or a list. -/
inductive Ids where
  | scalar : Int → Ids
  | list : List Int → Ids
deriving DecidableEq, Repr

/-- The `isinstance(ids, int)` normalization: a scalar becomes a one-element
list, a list is kept as is. -/
def normIds : Ids → List Int
  | .scalar i => [i]
  | .list l => l

/-- A result shape that is either a single unwrapped element or a sequence. -/
inductive RetShape (α : Type) where
  | one : α → RetShape α
  | many : List α → RetShape α
deriving DecidableEq, Repr

/-- Outcome of `read`: the ids and fields forwarded to the remote call, and
the (possibly unwrapped, possibly raising) returned value. -/
structure ReadOutcome (α : Type) where
  forwardedIds : List Int
  forwardedFields : Option (List String)
  ret : Except PyError (RetShape α)
deriving Repr

/-- `OdooClient.read(model, ids, fields)`: normalize a scalar id to a
one-element list, forward `fields` as a keyword only when supplied, call
`env[model].read(ids, **kwargs)`, and return `result[0]` when the
normalized ids have length 1, else `result` unchanged. -/
def OdooClient.read (env : String → List Int → Option (List String) → List α)
    (model : String) (ids : Ids) (fields : Option (List String)) :
    ReadOutcome α :=
  let idsN := normIds ids
  let result := env model idsN fields
  { forwardedIds := idsN
    forwardedFields := fields
    ret :=
      if idsN.length == 1 then
        match result with
        | r :: _ => .ok (.one r)
        | [] => .error .indexError
      else .ok (.many result) }

/-- The `values` argument of `create`: a single mapping or a list of mappings
(the mapping type is abstract). -/
inductive Values (α : Type) where
  | single : α → Values α
  | many : List α → Values α
deriving DecidableEq, Repr

/-- `isinstance(values, dict)`. -/
def Values.isSingle : Values α → Bool
  | .single _ => true
  | .many _ => false

/-- The wrapping step of `create`: a single mapping becomes a one-element
list, a list is forwarded as is. -/
def normValues : Values α → List α
  | .single m => [m]
  | .many l => l

/-- Outcome of `create`: the sequence of mappings forwarded to the remote
call and the (possibly unwrapped, possibly raising) returned value. -/
structure CreateOutcome (α : Type) where
  forwardedValues : List α
  ret : Except PyError (RetShape Int)
deriving Repr

/-- `OdooClient.create(model, values)`: always forward a sequence of
mappings to `env[model].create`, and return `result[0]` when the input was a
single mapping, else `result` unchanged. -/
def OdooClient.create (env : String → List α → List Int)
    (model : String) (values : Values α) : CreateOutcome α :=
  let single_record := values.isSingle
  let values_to_create := normValues values
  let result := env model values_to_create
  { forwardedValues := values_to_create
    ret :=
      if single_record then
        match result with
        | i :: _ => .ok (.one i)
        | [] => .error .indexError
      else .ok (.many result) }

/-- The call `env[model].search(domain, **kwargs)` issued by `search`:
`domain` is the sole positional argument; `offset`, `limit`, `order` are the
keyword arguments, `none` meaning the keyword was not passed. -/
structure SearchCall (δ : Type) where
  model : String
  domain : List δ
  offset : Option Int
  limit : Option Int
  order : Option String
deriving Repr

/-- `OdooClient.search(model, domain, offset, limit, order)`: replace a
falsy domain (`None` or empty) by `[]`, always put `offset` in the keyword
dictionary, add `limit` and `order` only when they are not `None`, and issue
the remote call.  The result is the remote's, returned unchanged, so the
embedding returns the forwarded call itself. -/
def OdooClient.search (model : String) (domain : Option (List δ))
    (offset : Int) (limit : Option Int) (order : Option String) :
    SearchCall δ :=
  let d := match domain with
    | none => []
    | some l => if l.isEmpty then [] else l
  { model := model, domain := d, offset := some offset,
    limit := limit, order := order }

/-- Concrete configuration mirroring the test fixture (password form, timeout 60). -/
def cfgTest : OdooConfig :=
  { url := "https://test.odoo.com", database := "test_db",
    username := "test_user", password := some "test_pass", api_key := none,
    timeout := 60, transport := none }

/-- Same configuration except for the timeout value. -/
def cfgT77 : OdooConfig :=
  { url := "https://test.odoo.com", database := "test_db",
    username := "test_user", password := some "test_pass", api_key := none,
    timeout := 77, transport := none }

/-- Concrete configuration in the api-key form, with a trailing slash on the
url and a supplied transport override. -/
def cfgKey : OdooConfig :=
  { url := "https://test.odoo.com/", database := "test_db",
    username := "test_user", password := none, api_key := some "test_key",
    timeout := 120, transport := some 3 }

/-- Concrete facade built from the password-form configuration. -/
def clientTest : OdooClient := mkOdooClient cfgTest

/-- Concrete facade built from the api-key-form configuration. -/
def clientKey : OdooClient := mkOdooClient cfgKey

/-- C4: configuration construction fails with the credential validation error
exactly when both `password` and `api_key` are absent or empty; whenever at
least one of them is a non-empty string, construction succeeds with the
given field values (so no other cross-field check exists). -/
theorem config_credential_check (u d n : String) (pw ak : Option String)
    (t : Option Int) (tr : Option Nat) :
    (mkOdooConfig (some u) (some d) (some n) pw ak t tr =
        .error .credentialError ↔
      strTruthy pw = false ∧ strTruthy ak = false) ∧
    (strTruthy pw = true ∨ strTruthy ak = true →
      mkOdooConfig (some u) (some d) (some n) pw ak t tr =
        .ok { url := u, database := d, username := n, password := pw,
              api_key := ak, timeout := t.getD 120, transport := tr }) := by
  unfold mkOdooConfig
  cases hp : strTruthy pw <;> cases ha : strTruthy ak <;> simp

/-- C4 witness: a password-only configuration constructs successfully. -/
theorem config_credential_check_witness :
    mkOdooConfig (some "https://test.odoo.com") (some "test_db")
      (some "test_user") (some "test_pass") none none none =
    .ok { url := "https://test.odoo.com", database := "test_db",
          username := "test_user", password := some "test_pass",
          api_key := none, timeout := 120, transport := none } :=
  (config_credential_check "https://test.odoo.com" "test_db" "test_user"
      (some "test_pass") none none none).2 (Or.inl (by decide))

/-- C5 counterexample: the claim says construction fails whenever the
address is the empty string, but the code accepts an empty `url` (pydantic
only checks that the required fields were provided, not that they are
non-empty). -/
theorem config_empty_url_ok :
    mkOdooConfig (some "") (some "test_db") (some "test_user")
      (some "test_pass") none none none =
    .ok { url := "", database := "test_db", username := "test_user",
          password := some "test_pass", api_key := none, timeout := 120,
          transport := none } := rfl

/-- C5 amended: `url`, `database` and `username` are required — omitting any
of them fails with the missing-field validation error, independently of the
credential check (it fires even when both credentials are absent) — but
non-emptiness is not enforced: when all three are provided, even as empty
strings, construction succeeds whenever a credential is present. -/
theorem config_required_fields (u d n : String) (pw ak : Option String)
    (t : Option Int) (tr : Option Nat)
    (hcred : strTruthy pw = true ∨ strTruthy ak = true) :
    mkOdooConfig none (some d) (some n) pw ak t tr = .error .missingField ∧
    mkOdooConfig (some u) none (some n) pw ak t tr = .error .missingField ∧
    mkOdooConfig (some u) (some d) none pw ak t tr = .error .missingField ∧
    mkOdooConfig none (some d) (some n) none none t tr =
      .error .missingField ∧
    (∃ cfg, mkOdooConfig (some u) (some d) (some n) pw ak t tr = .ok cfg) := by
  refine ⟨rfl, rfl, rfl, rfl, ?_⟩
  rcases hcred with h | h <;> unfold mkOdooConfig <;> simp [h]

/-- C5 witness: omission of a required field fails even with valid
credentials, and empty strings for all three required fields are accepted. -/
theorem config_required_fields_witness :
    mkOdooConfig none (some "test_db") (some "test_user") (some "test_pass")
      none none none = .error .missingField ∧
    mkOdooConfig (some "") none (some "test_user") (some "test_pass")
      none none none = .error .missingField ∧
    mkOdooConfig (some "") (some "test_db") none (some "test_pass")
      none none none = .error .missingField ∧
    mkOdooConfig none (some "test_db") (some "test_user") none none
      none none = .error .missingField ∧
    (∃ cfg, mkOdooConfig (some "") (some "") (some "") (some "test_pass")
      none none none = .ok cfg) :=
  config_required_fields "" "" "" (some "test_pass") none none none
    (Or.inl (by decide))

/-- C7: `search` forwards the domain as the sole positional argument
(substituting the empty domain for an omitted or empty one), always forwards
`offset` as a keyword, and forwards `limit`/`order` as keywords exactly when
the caller supplied them — an omitted optional parameter never appears in
the forwarded call. -/
theorem search_forwarding (model : String) (domain : Option (List δ))
    (offset : Int) (limit : Option Int) (order : Option String) :
    (OdooClient.search model domain offset limit order).domain =
      domain.getD [] ∧
    (OdooClient.search model domain offset limit order).offset =
      some offset ∧
    (OdooClient.search model domain offset limit order).limit = limit ∧
    (OdooClient.search model domain offset limit order).order = order := by
  refine ⟨?_, rfl, rfl, rfl⟩
  cases domain with
  | none => rfl
  | some l => cases l <;> rfl

/-- C3: `read` forwards the normalized ids (a scalar becomes a one-element
list); the result is unwrapped to the single first record exactly when the
normalized ids have length 1 — also for a one-element list input — and is
returned unchanged otherwise. -/
theorem read_normalize_unwrap
    (env : String → List Int → Option (List String) → List α)
    (model : String) (ids : Ids) (fields : Option (List String)) :
    (OdooClient.read env model ids fields).forwardedIds = normIds ids ∧
    (∀ i, normIds (Ids.scalar i) = [i]) ∧
    (∀ r rs, (normIds ids).length = 1 →
      env model (normIds ids) fields = r :: rs →
      (OdooClient.read env model ids fields).ret = .ok (.one r)) ∧
    ((normIds ids).length ≠ 1 →
      (OdooClient.read env model ids fields).ret =
        .ok (.many (env model (normIds ids) fields))) := by
  refine ⟨rfl, fun i => rfl, ?_, ?_⟩
  · intro r rs hlen hres
    unfold OdooClient.read
    simp [hlen, hres]
  · intro hlen
    unfold OdooClient.read
    simp [hlen]

/-- C3 witness: a one-element list input is unwrapped to the single record. -/
theorem read_normalize_unwrap_witness :
    (OdooClient.read (fun _ _ _ => [(5 : Nat)]) "res.partner" (Ids.list [7])
        (some ["name"])).ret = .ok (.one 5) :=
  (read_normalize_unwrap (fun _ _ _ => [(5 : Nat)]) "res.partner"
      (Ids.list [7]) (some ["name"])).2.2.1 5 [] (by decide) rfl

/-- C8: `create` always forwards a sequence of mappings (a single mapping is
wrapped in a one-element list); the result is unwrapped to the first created
identifier exactly when the input was a single mapping, and for a sequence
input — even of length 1 — the remote result sequence is returned
unchanged. -/
theorem create_wrap_unwrap (env : String → List α → List Int)
    (model : String) (values : Values α) :
    (OdooClient.create env model values).forwardedValues =
      normValues values ∧
    (∀ m : α, normValues (Values.single m) = [m]) ∧
    (∀ m i rest, values = Values.single m → env model [m] = i :: rest →
      (OdooClient.create env model values).ret = .ok (.one i)) ∧
    (∀ l, values = Values.many l →
      (OdooClient.create env model values).ret =
        .ok (.many (env model l))) := by
  refine ⟨rfl, fun m => rfl, ?_, ?_⟩
  · intro m i rest hv hres
    subst hv
    unfold OdooClient.create
    simp [Values.isSingle, normValues, hres]
  · intro l hv
    subst hv
    rfl

/-- C8 witness: a single mapping yields the first created identifier. -/
theorem create_wrap_unwrap_witness :
    (OdooClient.create (fun _ _ => [42]) "res.partner"
        (Values.single (0 : Nat))).ret = .ok (.one 42) :=
  (create_wrap_unwrap (fun _ _ => [42]) "res.partner"
      (Values.single (0 : Nat))).2.2.1 0 42 [] rfl rfl

/-- C9: the unwrap step of `read` and `create` indexes the remote result
without a guard — when the remote returns an empty sequence while the
normalized ids have length 1 (for `read`), or for a single-mapping input
(for `create`), the operation fails with an indexing error. -/
theorem unwrap_requires_nonempty (ids : Ids)
    (envR : String → List Int → Option (List String) → List α)
    (modelR : String) (fieldsR : Option (List String))
    (values : Values β) (envC : String → List β → List Int) (modelC : String)
    (h1 : (normIds ids).length = 1)
    (h2 : envR modelR (normIds ids) fieldsR = [])
    (h3 : values.isSingle = true)
    (h4 : envC modelC (normValues values) = []) :
    (OdooClient.read envR modelR ids fieldsR).ret = .error .indexError ∧
    (OdooClient.create envC modelC values).ret = .error .indexError := by
  constructor
  · unfold OdooClient.read
    simp [h1, h2]
  · unfold OdooClient.create
    simp [h3, h4]

/-- C9 witness: empty remote results make `read` of a scalar id and `create`
of a single mapping fail with the indexing error. -/
theorem unwrap_requires_nonempty_witness :
    (OdooClient.read (fun _ _ _ => ([] : List Nat)) "res.partner"
        (Ids.scalar 1) none).ret = .error .indexError ∧
    (OdooClient.create (fun _ _ => ([] : List Int)) "res.partner"
        (Values.single (0 : Nat))).ret = .error .indexError :=
  unwrap_requires_nonempty (Ids.scalar 1) (fun _ _ _ => []) "res.partner"
    none (Values.single (0 : Nat)) (fun _ _ => []) "res.partner"
    (by decide) rfl rfl rfl

/-- Helper: a facade with a set `uid` returns it unchanged, with no remote
call and no state change (the `self.uid is None` guard). -/
theorem authenticate_cached (c : OdooClient)
    (remote : String → String → Option String → Int) (u : Int)
    (h : c.uid = some u) :
    c.authenticate remote =
      { ret := .ok u, client := c, remoteCalls := 0 } := by
  unfold OdooClient.authenticate
  rw [h]

/-- Helper: iterating `authenticate()` on a facade whose `uid` is set makes
no remote call and leaves the facade unchanged. -/
theorem authTimes_cached (remote : String → String → Option String → Int)
    (c : OdooClient) (u : Int) (h : c.uid = some u) :
    ∀ n, authTimes remote c n = (c, 0) := by
  intro n
  induction n with
  | zero => rfl
  | succ k ih =>
      unfold authTimes
      rw [authenticate_cached c remote u h]
      simpa using ih

/-- Helper: the first `authenticate()` call on a fresh facade assigns the
remote result to `uid` and raises exactly when that result is falsy. -/
theorem authenticate_fresh (c : OdooClient)
    (remote : String → String → Option String → Int) (v : Int)
    (h : c.uid = none) (hv : remote c.database c.username c.password = v) :
    c.authenticate remote =
      { ret := if v = 0 then .error .authFailed else .ok v,
        client := { c with uid := some v }, remoteCalls := 1 } := by
  unfold OdooClient.authenticate
  rw [h]
  by_cases hz : v = 0 <;> simp [hv, hz]

/-- C1 counterexample: the claim says a falsy remote result leaves the
cached identity unset, but on the concrete facade the raising call stores
the falsy identity 0 in `uid` (the `None`-based cache check then treats it
as set). -/
theorem auth_falsy_caches_cx :
    (clientTest.authenticate (fun _ _ _ => 0)).ret = .error .authFailed ∧
    (clientTest.authenticate (fun _ _ _ => 0)).client.uid = some 0 :=
  ⟨rfl, rfl⟩

/-- C1 amended: when the remote authenticate returns a falsy result on a
fresh facade, the call raises the authentication error, but the falsy value
is stored as the cached identity before the raise (the cache does not remain
unset). -/
theorem auth_falsy_raises_and_stores (c : OdooClient)
    (remote : String → String → Option String → Int)
    (h : c.uid = none) (hv : remote c.database c.username c.password = 0) :
    (c.authenticate remote).ret = .error .authFailed ∧
    (c.authenticate remote).client.uid = some 0 := by
  rw [authenticate_fresh c remote 0 h hv]
  exact ⟨by simp, rfl⟩

/-- C1 amended witness: the api-key facade with a remote returning 0. -/
theorem auth_falsy_raises_and_stores_witness :
    (clientKey.authenticate (fun _ _ _ => 0)).ret = .error .authFailed ∧
    (clientKey.authenticate (fun _ _ _ => 0)).client.uid = some 0 :=
  auth_falsy_raises_and_stores clientKey (fun _ _ _ => 0) rfl rfl

/-- C6: on a fresh facade whose remote authenticate returns a non-zero
identity, the first call returns it with exactly one remote call and caches
it; every subsequent call returns the same identity with no remote call, and
any number of consecutive calls makes exactly one remote call in total. -/
theorem authenticate_memoized (c : OdooClient)
    (remote : String → String → Option String → Int) (v : Int)
    (h : c.uid = none) (hv : remote c.database c.username c.password = v)
    (hnz : v ≠ 0) :
    (c.authenticate remote).ret = .ok v ∧
    (c.authenticate remote).remoteCalls = 1 ∧
    (c.authenticate remote).client.uid = some v ∧
    ((c.authenticate remote).client.authenticate remote).ret = .ok v ∧
    ((c.authenticate remote).client.authenticate remote).remoteCalls = 0 ∧
    (∀ n, (authTimes remote c (n + 1)).2 = 1) := by
  have hstep := authenticate_fresh c remote v h hv
  rw [if_neg hnz] at hstep
  refine ⟨by rw [hstep], by rw [hstep], by rw [hstep], ?_, ?_, ?_⟩
  · rw [hstep, authenticate_cached _ remote v rfl]
  · rw [hstep, authenticate_cached _ remote v rfl]
  · intro n
    unfold authTimes
    rw [hstep]
    simp [authTimes_cached remote { c with uid := some v } v rfl n]

/-- C6 witness: a remote returning 123 is called exactly once over five
consecutive `authenticate()` calls on the concrete facade. -/
theorem authenticate_memoized_witness :
    (clientTest.authenticate (fun _ _ _ => 123)).ret = .ok 123 ∧
    (clientTest.authenticate (fun _ _ _ => 123)).remoteCalls = 1 ∧
    (authTimes (fun _ _ _ => 123) clientTest 5).2 = 1 :=
  ⟨(authenticate_memoized clientTest (fun _ _ _ => 123) 123 rfl rfl
      (by decide)).1,
   (authenticate_memoized clientTest (fun _ _ _ => 123) 123 rfl rfl
      (by decide)).2.1,
   (authenticate_memoized clientTest (fun _ _ _ => 123) 123 rfl rfl
      (by decide)).2.2.2.2.2 4⟩

/-- C10: a falsy authentication result is cached — the raising call stores 0
in `uid`, and every subsequent `authenticate()` call on that facade returns
0 without raising and without any further remote call. -/
theorem auth_failure_cached (c : OdooClient)
    (remote : String → String → Option String → Int)
    (h : c.uid = none) (hv : remote c.database c.username c.password = 0) :
    (c.authenticate remote).ret = .error .authFailed ∧
    (c.authenticate remote).client.uid = some 0 ∧
    ((c.authenticate remote).client.authenticate remote).ret = .ok 0 ∧
    ((c.authenticate remote).client.authenticate remote).remoteCalls = 0 ∧
    (∀ n, (authTimes remote (c.authenticate remote).client n).2 = 0) := by
  have hstep := authenticate_fresh c remote 0 h hv
  rw [if_pos rfl] at hstep
  refine ⟨by rw [hstep], by rw [hstep], ?_, ?_, ?_⟩
  · rw [hstep, authenticate_cached _ remote 0 rfl]
  · rw [hstep, authenticate_cached _ remote 0 rfl]
  · intro n
    rw [hstep, authTimes_cached remote { c with uid := some 0 } 0 rfl n]

/-- C10 witness: on the concrete facade a remote returning 0 raises once,
then three further calls return 0 with zero remote calls. -/
theorem auth_failure_cached_witness :
    (clientTest.authenticate (fun _ _ _ => 0)).ret = .error .authFailed ∧
    ((clientTest.authenticate (fun _ _ _ => 0)).client.authenticate
        (fun _ _ _ => 0)).ret = .ok 0 ∧
    (authTimes (fun _ _ _ => 0)
        (clientTest.authenticate (fun _ _ _ => 0)).client 3).2 = 0 :=
  ⟨(auth_failure_cached clientTest (fun _ _ _ => 0) rfl rfl).1,
   (auth_failure_cached clientTest (fun _ _ _ => 0) rfl rfl).2.2.1,
   (auth_failure_cached clientTest (fun _ _ _ => 0) rfl rfl).2.2.2.2 3⟩

/-- C2 counterexample: two configurations differing only in their timeout
value produce the identical constructor call on the external client, whose
keyword arguments carry no timeout — so the timeout value is not forwarded
to the external client's transport layer. -/
theorem timeout_not_forwarded :
    (mkOdooClient cfgT77).ctorCall = (mkOdooClient cfgTest).ctorCall ∧
    (mkOdooClient cfgT77).ctorCall.kwargs.timeout = none ∧
    cfgT77.timeout = 77 ∧ cfgTest.timeout = 60 :=
  ⟨rfl, rfl, rfl, rfl⟩

/-- C2 amended: for every configuration, the environment handle is obtained
from the external client using the stripped address, tenant, principal and
derived credential, with the transport — and no timeout — as keyword
argument; the timeout value is only stored on the facade. -/
theorem ctor_call_shape (config : OdooConfig) :
    (mkOdooClient config).ctorCall =
      { url := rstripSlash config.url, database := config.database,
        username := config.username,
        password := pyOrStr config.api_key config.password,
        kwargs := { transport := some (mkOdooClient config).transport,
                    timeout := none } } ∧
    (mkOdooClient config).timeout = config.timeout :=
  ⟨rfl, rfl⟩

end OdooMcp
